import Mathlib

/-!
Verification of the client-side authentication session engine
(hierarchical auth state machine + refresh scheduler) of the nhost
repository. The machine implementation itself is not present in the
source tree (only its test suite is), so the data model and transition
functions below are modelled from the design specification, constrained
by the behaviour the test suite asserts. Timestamps and durations are
integers (seconds); machine state and context are plain records and the
transition logic is pure functions, matching the spec's own design note
that transitions are a pure function from state, event and context.
-/

namespace NhostAuth

/-- Modelled from the spec: the access-token part of the session context.
`value` is non-null iff signed in; `expiresAt` is a timestamp. -/
structure AccessToken where
  value : Option String
  expiresAt : Option Int
  deriving DecidableEq, Repr

/-- Modelled from the spec: the refresh-token part of the session context. -/
structure RefreshTokenField where
  value : Option String
  deriving DecidableEq, Repr

/-- Modelled from the spec: the refresh-timer bookkeeping; `attempts` counts
consecutive failed refresh attempts. -/
structure RefreshTimerInfo where
  attempts : Nat
  deriving DecidableEq, Repr

/-- A classified error as stored in `context.errors`: code, message and
numeric status (shapes taken from the test suite's inline snapshots). -/
structure ErrorPayload where
  error : String
  message : String
  status : Int
  deriving DecidableEq, Repr

/-- Modelled from the spec: the `errors` mapping of the context; only the
`authentication` category is exercised by the core. -/
structure AuthErrors where
  authentication : Option ErrorPayload
  deriving DecidableEq, Repr

/-- Modelled from the spec: the session context owned by the state machine
(`src/machines` is absent from the tree). -/
structure AuthContext where
  user : Option String
  accessToken : AccessToken
  refreshToken : RefreshTokenField
  refreshTimer : RefreshTimerInfo
  errors : AuthErrors
  deriving DecidableEq, Repr

/-- The empty machine context: signed out, nothing stored, no errors. -/
def initialContext : AuthContext :=
  { user := none
    accessToken := { value := none, expiresAt := none }
    refreshToken := { value := none }
    refreshTimer := { attempts := 0 }
    errors := { authentication := none } }

/-- Modelled from the spec: sub-states of the `signedIn.refreshTimer`
region of the hierarchical machine. -/
inductive RefreshTimerState where
  | idle
  | pending
  | refreshing
  deriving DecidableEq, Repr

/-- Modelled from the spec: top-level machine states
(`authentication.signedIn` with its refresh-timer sub-state,
`authentication.signedOut.noErrors`, `authentication.signedOut.failed`). -/
inductive AuthState where
  | signedIn (t : RefreshTimerState)
  | signedOutNoErrors
  | signedOutFailed
  deriving DecidableEq, Repr

/-- Modelled from the spec: the configuration surface consumed by the core:
refresh margin (seconds), optional fixed refresh interval (seconds), and
the auto-sign-in switch. -/
structure AuthConfig where
  refreshMarginSeconds : Int
  refreshIntervalTime : Option Int
  autoSignIn : Bool
  deriving DecidableEq, Repr

/-- Modelled from the spec: the session record returned by the token
backend or supplied by a `SESSION_UPDATE` event;
`accessTokenExpiresIn` is a duration in seconds and may be absent. -/
structure Session where
  user : String
  accessToken : String
  accessTokenExpiresIn : Option Int
  refreshToken : String
  deriving DecidableEq, Repr

/-- Modelled from the spec: classified outcome of a TokenClient call
(`refresh`/`exchangeToken`); every outcome is classified before the
machine advances. -/
inductive RefreshOutcome where
  | success (s : Session)
  | unauthorized
  | networkError
  | internalError
  deriving DecidableEq, Repr

/-- Modelled from the spec: the error taxonomy categories. -/
inductive ErrorCategory where
  | invalidRefreshToken
  | networkFailure
  | internalFailure
  | urlOrigin
  deriving DecidableEq, Repr

/-- The `invalid-refresh-token` payload (code, message and HTTP status as
snapshotted by the test suite). -/
def INVALID_REFRESH_TOKEN : ErrorPayload :=
  { error := "invalid-refresh-token"
    message := "Invalid or expired refresh token"
    status := 401 }

/-- The transport-failure payload as snapshotted by the test suite. -/
def NETWORK_ERROR_PAYLOAD : ErrorPayload :=
  { error := "OK", message := "Network Error", status := 200 }

/-- The backend-failure payload as snapshotted by the test suite. -/
def INTERNAL_ERROR_PAYLOAD : ErrorPayload :=
  { error := "internal-error", message := "Internal error", status := 500 }

/-- The fixed default numeric status recorded for URL-origin errors
(value 10 in the test suite's snapshots). -/
def URL_ERROR_STATUS : Int := 10

/-- Classification of a TokenClient outcome into the error taxonomy. -/
def classify : RefreshOutcome → Option ErrorCategory
  | .success _ => none
  | .unauthorized => some .invalidRefreshToken
  | .networkError => some .networkFailure
  | .internalError => some .internalFailure

/-- The context payload stored for each classified error category
originating from a TokenClient call. -/
def payloadOf : ErrorCategory → ErrorPayload
  | .invalidRefreshToken => INVALID_REFRESH_TOKEN
  | .networkFailure => NETWORK_ERROR_PAYLOAD
  | .internalFailure => INTERNAL_ERROR_PAYLOAD
  | .urlOrigin => { error := "", message := "", status := URL_ERROR_STATUS }

/-- The error payload a failed TokenClient outcome writes into
`context.errors.authentication` (none for success). -/
def errorPayload (o : RefreshOutcome) : Option ErrorPayload :=
  (classify o).map payloadOf

/-- Modelled from the spec: the RefreshScheduler delay policy. Default:
`max 0 (expiresAt - now - refreshMarginSeconds)`; when
`refreshIntervalTime` is configured the delay is always that fixed
number of seconds regardless of the token's own expiry. -/
def refreshDelay (cfg : AuthConfig) (ctx : AuthContext) (now : Int) : Int :=
  match cfg.refreshIntervalTime with
  | some i => i
  | none =>
    match ctx.accessToken.expiresAt with
    | some e => max 0 (e - now - cfg.refreshMarginSeconds)
    | none => 0

/-- Modelled from the spec: installing a session into the context at time
`now`: populates user, tokens and expiry, resets the failed-attempt
counter and clears errors. -/
def applySession (ctx : AuthContext) (now : Int) (s : Session) : AuthContext :=
  { ctx with
    user := some s.user
    accessToken :=
      { value := some s.accessToken
        expiresAt := s.accessTokenExpiresIn.map (fun d => now + d) }
    refreshToken := { value := some s.refreshToken }
    refreshTimer := { attempts := 0 }
    errors := { authentication := none } }

/-- Modelled from the spec and the test suite: completion of an in-flight
refresh at time `now`. Success installs the new session and re-arms the
timer (state `signedIn pending`). A failed refresh keeps the session
signed in, leaves the tokens untouched, increments the attempt counter
by one and records the classified error; the timer is re-armed for a
retry (the test suite shows this also holds for an unauthorized
response during a scheduled refresh). -/
def applyRefreshOutcome (ctx : AuthContext) (now : Int) :
    RefreshOutcome → AuthState × AuthContext
  | .success s => (.signedIn .pending, applySession ctx now s)
  | o =>
    (.signedIn .pending,
     { ctx with
       refreshTimer := { attempts := ctx.refreshTimer.attempts + 1 }
       errors := { authentication := errorPayload o } })

/-- Modelled from the spec: advancing simulated time to `t` for a timer
armed at `armedAt`: a pending timer fires (moving to `refreshing`) once
`t` reaches the scheduled moment `armedAt + delay`; any earlier
advance is a no-op, as is an advance in any other state. -/
def advanceTime (cfg : AuthConfig) (st : AuthState) (ctx : AuthContext)
    (armedAt t : Int) : AuthState × AuthContext :=
  match st with
  | .signedIn .pending =>
    if armedAt + refreshDelay cfg ctx armedAt ≤ t then
      (.signedIn .refreshing, ctx)
    else
      (.signedIn .pending, ctx)
  | s => (s, ctx)

/-- A successful scheduled refresh under the default policy: the timer
fires at `expiresAt - M` and the resulting session is installed at that
moment (no-op when no expiry is known). -/
def refreshAtMargin (M : Int) (ctx : AuthContext) (s : Session) : AuthContext :=
  match ctx.accessToken.expiresAt with
  | some e => (applyRefreshOutcome ctx (e - M) (.success s)).2
  | none => ctx

/-- A run of consecutive successful scheduled refreshes. -/
def runRefreshes (M : Int) (ctx : AuthContext) (l : List Session) : AuthContext :=
  l.foldl (refreshAtMargin M) ctx

/-- Whether a classified failure is retriable (transport or backend
failure per the spec's taxonomy). -/
def RefreshOutcome.retriable : RefreshOutcome → Bool
  | .networkError => true
  | .internalError => true
  | _ => false

/-- Modelled from the spec: the abstract persistent SessionStore projected
onto the two keys the machine writes: the JWT-expiry key
(NHOST_JWT_EXPIRES_AT_KEY) and the refresh-token key
(NHOST_REFRESH_TOKEN_KEY). -/
structure SessionStore where
  jwtExpiresAt : Option String
  refreshToken : Option String
  deriving DecidableEq, Repr

/-- Modelled from the spec: synchronous persistence of the durable parts of
the context (refresh token and expiry timestamp; the access-token value
itself is never persisted). -/
def persistSession (ctx : AuthContext) : SessionStore :=
  { jwtExpiresAt := ctx.accessToken.expiresAt.map toString
    refreshToken := ctx.refreshToken.value }

/-- Modelled from the spec: handling of a `SESSION_UPDATE` event at time
`now`. The supplied session is installed and persisted; when
`accessTokenExpiresIn` is absent the machine immediately performs
exactly one refresh (outcome `r`) to obtain a definite expiry. The last
component counts the refresh calls performed. -/
def handleSessionUpdate (ctx : AuthContext) (now : Int) (s : Session)
    (r : RefreshOutcome) : AuthState × AuthContext × SessionStore × Nat :=
  let ctx1 := applySession ctx now s
  match s.accessTokenExpiresIn with
  | some _ => (.signedIn .pending, ctx1, persistSession ctx1, 0)
  | none =>
    let res := applyRefreshOutcome ctx1 now r
    (res.1, res.2, persistSession res.2, 1)

/-- Modelled from the spec: the record the UrlSessionExtractor parses from
the entry URL (each query parameter optional). -/
structure UrlParams where
  refreshToken : Option String
  error : Option String
  errorDescription : Option String
  deriving DecidableEq, Repr

/-- The payload recorded for a URL-origin error: the code, the description
(defaulting to the code itself when absent), and the fixed default
status for URL-origin errors. -/
def urlErrorPayload (code : String) (desc : Option String) : ErrorPayload :=
  { error := code, message := desc.getD code, status := URL_ERROR_STATUS }

/-- Modelled from the spec and the test suite: the auto-sign-in step taken
at machine start when `autoSignIn` is enabled. A URL-borne refresh
token takes precedence and is exchanged via the TokenClient (outcome
`o` at time `now`): success signs in; any classified failure lands in
`signedOut.noErrors` with the classified error recorded. A URL-borne
`error` parameter lands in `signedOut.noErrors` with the parsed
code/description recorded under the fixed URL-origin status. With
neither parameter the machine stays signed out. -/
def autoSignInStep (params : UrlParams) (now : Int)
    (o : RefreshOutcome) : AuthState × AuthContext :=
  match params.refreshToken with
  | some _ =>
    match o with
    | .success s => (.signedIn .pending, applySession initialContext now s)
    | f =>
      (.signedOutNoErrors,
       { initialContext with errors := { authentication := errorPayload f } })
  | none =>
    match params.error with
    | some code =>
      (.signedOutNoErrors,
       { initialContext with
         errors :=
           { authentication :=
               some (urlErrorPayload code params.errorDescription) } })
    | none => (.signedOutNoErrors, initialContext)

/-- A concrete signed-in context used by witnesses: token `tok-0`
expiring at time 1900. -/
def sampleSignedInContext : AuthContext :=
  { user := some "user-1"
    accessToken := { value := some "tok-0", expiresAt := some 1900 }
    refreshToken := { value := some "rt-0" }
    refreshTimer := { attempts := 0 }
    errors := { authentication := none } }

/-- A concrete session returned by a first refresh. -/
def sampleSession1 : Session :=
  { user := "user-2", accessToken := "tok-1"
    accessTokenExpiresIn := some 900, refreshToken := "rt-1" }

/-- A concrete session returned by a second refresh. -/
def sampleSession2 : Session :=
  { user := "user-3", accessToken := "tok-2"
    accessTokenExpiresIn := some 900, refreshToken := "rt-2" }

/-- Claim C1 as stated is false on the modelled machine: at a concrete
signed-in context, a scheduled refresh that fails with an
invalid-refresh-token (HTTP unauthorized) outcome does not transition
to `signedOut.failed` and does not clear the session — the machine
re-enters `signedIn.refreshTimer.running.pending` with user, access
token and refresh token intact (this is exactly what the repository's
own test asserts: after the unauthorized refresh the machine is
observed in `running.pending` with `attempts > 0`). -/
theorem C1_counterexample :
    (applyRefreshOutcome sampleSignedInContext 1900 .unauthorized).1
      ≠ AuthState.signedOutFailed ∧
    (applyRefreshOutcome sampleSignedInContext 1900 .unauthorized).2.user
      ≠ none ∧
    (applyRefreshOutcome sampleSignedInContext 1900 .unauthorized).2.accessToken.value
      ≠ none ∧
    (applyRefreshOutcome sampleSignedInContext 1900 .unauthorized).2.refreshToken.value
      ≠ none := by
  decide

/-- Claim C1 amended: for every signed-in session, a scheduled refresh
that fails with an invalid-refresh-token (HTTP unauthorized) outcome
keeps the machine signed in — it re-enters
`signedIn.refreshTimer.running.pending`, leaves `user`, `accessToken`
and `refreshToken` unchanged, increments `refreshTimer.attempts` by
one, and records `errors.authentication.error =
"invalid-refresh-token"`. -/
theorem C1_unauthorized_refresh_keeps_session (ctx : AuthContext) (now : Int) :
    (applyRefreshOutcome ctx now .unauthorized).1 = .signedIn .pending ∧
    (applyRefreshOutcome ctx now .unauthorized).2.user = ctx.user ∧
    (applyRefreshOutcome ctx now .unauthorized).2.accessToken = ctx.accessToken ∧
    (applyRefreshOutcome ctx now .unauthorized).2.refreshToken = ctx.refreshToken ∧
    (applyRefreshOutcome ctx now .unauthorized).2.refreshTimer.attempts
      = ctx.refreshTimer.attempts + 1 ∧
    (applyRefreshOutcome ctx now .unauthorized).2.errors.authentication
      = some INVALID_REFRESH_TOKEN := by
  simp [applyRefreshOutcome, errorPayload, classify, payloadOf]

/-- Claim C2: for a signed-in session whose access token expires at
`now + D` with margin `M < D` and no fixed refresh interval, the
scheduler delay equals `D - M` (that is,
`max 0 (expiresAt - now - M)`), and advancing simulated time to `t`
moves the pending timer to `refreshing` exactly when `t` reaches
`now + (D - M)` — and not before. -/
theorem C2_scheduled_refresh_fires_exactly_at_margin
    (cfg : AuthConfig) (ctx : AuthContext) (now D t : Int)
    (hI : cfg.refreshIntervalTime = none)
    (hE : ctx.accessToken.expiresAt = some (now + D))
    (hD : cfg.refreshMarginSeconds < D) :
    refreshDelay cfg ctx now = D - cfg.refreshMarginSeconds ∧
    ((advanceTime cfg (.signedIn .pending) ctx now t).1 = .signedIn .refreshing
      ↔ now + (D - cfg.refreshMarginSeconds) ≤ t) := by
  have hdelay : refreshDelay cfg ctx now = D - cfg.refreshMarginSeconds := by
    simp only [refreshDelay, hI, hE]
    omega
  refine ⟨hdelay, ?_⟩
  simp only [advanceTime, hdelay]
  by_cases h : now + (D - cfg.refreshMarginSeconds) ≤ t
  · simp [h]
  · simp [h]

/-- Witness for C2 at a concrete input: margin 300, token expiring at
1000 + 900, time advanced to exactly 1600 = 1000 + (900 - 300). -/
theorem C2_witness :
    refreshDelay ⟨300, none, false⟩ sampleSignedInContext 1000 = 900 - 300 ∧
    ((advanceTime ⟨300, none, false⟩ (.signedIn .pending)
        sampleSignedInContext 1000 1600).1 = .signedIn .refreshing
      ↔ (1000 : Int) + (900 - 300) ≤ 1600) :=
  C2_scheduled_refresh_fires_exactly_at_margin ⟨300, none, false⟩
    sampleSignedInContext 1000 900 1600 rfl (by decide) (by decide)

/-- Claim C4: a refresh attempt that fails with a retriable error
(transport or backend failure) keeps the machine signed in
(`refreshTimer.running.pending`), leaves the prior
`accessToken.value` unchanged, and increments
`refreshTimer.attempts` by exactly one. -/
theorem C4_retriable_refresh_failure
    (ctx : AuthContext) (now : Int) (o : RefreshOutcome)
    (h : o.retriable = true) :
    (applyRefreshOutcome ctx now o).1 = .signedIn .pending ∧
    (applyRefreshOutcome ctx now o).2.accessToken.value = ctx.accessToken.value ∧
    (applyRefreshOutcome ctx now o).2.refreshTimer.attempts
      = ctx.refreshTimer.attempts + 1 := by
  cases o <;> simp_all [RefreshOutcome.retriable, applyRefreshOutcome]

/-- Witness for C4 at a concrete input: a network error during a refresh
of the sample signed-in session. -/
theorem C4_witness :
    RefreshOutcome.retriable .networkError = true ∧
    ((applyRefreshOutcome sampleSignedInContext 1900 .networkError).1
        = .signedIn .pending ∧
     (applyRefreshOutcome sampleSignedInContext 1900 .networkError).2.accessToken.value
        = sampleSignedInContext.accessToken.value ∧
     (applyRefreshOutcome sampleSignedInContext 1900 .networkError).2.refreshTimer.attempts
        = sampleSignedInContext.refreshTimer.attempts + 1) :=
  ⟨by decide,
   C4_retriable_refresh_failure sampleSignedInContext 1900 .networkError (by decide)⟩

/-- Claim C9: idempotence under no-op time advance — for a signed-in
session with a pending timer under the default policy, advancing
simulated time to any point `t` still strictly before the scheduled
refresh moment `max armedAt (expiresAt - M)` (for example
`expiresAt - 5 * M` with a positive margin) leaves the state pending
and `accessToken.value` and `accessToken.expiresAt` unchanged. -/
theorem C9_noop_advance_before_schedule
    (cfg : AuthConfig) (ctx : AuthContext) (armedAt e t : Int)
    (hI : cfg.refreshIntervalTime = none)
    (hE : ctx.accessToken.expiresAt = some e)
    (ht : t < max armedAt (e - cfg.refreshMarginSeconds)) :
    (advanceTime cfg (.signedIn .pending) ctx armedAt t).1
      = .signedIn .pending ∧
    (advanceTime cfg (.signedIn .pending) ctx armedAt t).2.accessToken.value
      = ctx.accessToken.value ∧
    (advanceTime cfg (.signedIn .pending) ctx armedAt t).2.accessToken.expiresAt
      = ctx.accessToken.expiresAt := by
  have hcond : ¬ (armedAt + refreshDelay cfg ctx armedAt ≤ t) := by
    simp only [refreshDelay, hI, hE]
    omega
  simp [advanceTime, hcond]

/-- Witness for C9 at a concrete input: margin 300, token expiring at
1900, timer armed at 0, time advanced to the claim's example point
1900 - 5 * 300 = 400, strictly before the scheduled moment 1600. -/
theorem C9_witness :
    (advanceTime ⟨300, none, false⟩ (.signedIn .pending)
        sampleSignedInContext 0 (1900 - 5 * 300)).1 = .signedIn .pending ∧
    (advanceTime ⟨300, none, false⟩ (.signedIn .pending)
        sampleSignedInContext 0 (1900 - 5 * 300)).2.accessToken.value
      = sampleSignedInContext.accessToken.value ∧
    (advanceTime ⟨300, none, false⟩ (.signedIn .pending)
        sampleSignedInContext 0 (1900 - 5 * 300)).2.accessToken.expiresAt
      = sampleSignedInContext.accessToken.expiresAt :=
  C9_noop_advance_before_schedule ⟨300, none, false⟩ sampleSignedInContext
    0 1900 (1900 - 5 * 300) rfl (by decide) (by decide)

/-- Helper: across a run of successful scheduled refreshes, each granting
more than the margin of validity, the expiry stays defined and never
decreases. -/
theorem runRefreshes_expiry_mono (M : Int) (l : List Session) :
    ∀ (ctx : AuthContext) (e : Int), 0 ≤ M →
      ctx.accessToken.expiresAt = some e →
      (∀ s ∈ l, M < s.accessTokenExpiresIn.getD 0) →
      ∃ e2, (runRefreshes M ctx l).accessToken.expiresAt = some e2 ∧ e ≤ e2 := by
  induction l with
  | nil =>
    intro ctx e _ hE _
    exact ⟨e, by simpa [runRefreshes] using hE, le_refl e⟩
  | cons s rest ih =>
    intro ctx e hM hE hall
    have hs : M < s.accessTokenExpiresIn.getD 0 := hall s (by simp)
    obtain ⟨d, hd⟩ : ∃ d, s.accessTokenExpiresIn = some d := by
      cases hx : s.accessTokenExpiresIn with
      | none => rw [hx] at hs; simp at hs; omega
      | some d => exact ⟨d, rfl⟩
    have hdM : M < d := by rw [hd] at hs; simpa using hs
    have hstep : (refreshAtMargin M ctx s).accessToken.expiresAt
        = some (e - M + d) := by
      simp [refreshAtMargin, hE, applyRefreshOutcome, applySession, hd]
    have hrest : ∀ s2 ∈ rest, M < s2.accessTokenExpiresIn.getD 0 := by
      intro s2 h2; exact hall s2 (by simp [h2])
    obtain ⟨e2, he2, hle⟩ :=
      ih (refreshAtMargin M ctx s) (e - M + d) hM hstep hrest
    refine ⟨e2, ?_, ?_⟩
    · simpa [runRefreshes] using he2
    · omega

/-- Claim C3: a successful scheduled refresh (firing at
`expiresAt - M`, the new session valid for `d > M ≥ 0` seconds and
carrying a fresh token) yields a strictly greater
`accessToken.expiresAt`, a different `accessToken.value`, and resets
`refreshTimer.attempts` to 0; hence across any run of consecutive
successful refreshes of the session the expiry is monotonically
non-decreasing. -/
theorem C3_successful_refresh_advances_expiry
    (M : Int) (ctx : AuthContext) (e d : Int) (s : Session) (l : List Session)
    (hM : 0 ≤ M)
    (hE : ctx.accessToken.expiresAt = some e)
    (hd : s.accessTokenExpiresIn = some d)
    (hdM : M < d)
    (hv : some s.accessToken ≠ ctx.accessToken.value)
    (hl : ∀ s2 ∈ l, M < s2.accessTokenExpiresIn.getD 0) :
    ((refreshAtMargin M ctx s).accessToken.expiresAt = some (e - M + d) ∧
      e < e - M + d) ∧
    (refreshAtMargin M ctx s).accessToken.value ≠ ctx.accessToken.value ∧
    (refreshAtMargin M ctx s).refreshTimer.attempts = 0 ∧
    ∃ e2, (runRefreshes M ctx l).accessToken.expiresAt = some e2 ∧ e ≤ e2 := by
  refine ⟨⟨?_, by omega⟩, ?_, ?_, runRefreshes_expiry_mono M l ctx e hM hE hl⟩
  · simp [refreshAtMargin, hE, applyRefreshOutcome, applySession, hd]
  · simpa [refreshAtMargin, hE, applyRefreshOutcome, applySession] using hv
  · simp [refreshAtMargin, hE, applyRefreshOutcome, applySession]

/-- Witness for C3 at a concrete input: margin 300, token `tok-0`
expiring at 1900, one refresh to session `tok-1` valid 900 seconds,
and a one-element run of the same session. -/
theorem C3_witness :
    ((refreshAtMargin 300 sampleSignedInContext sampleSession1).accessToken.expiresAt
        = some (1900 - 300 + 900) ∧
      (1900 : Int) < 1900 - 300 + 900) ∧
    (refreshAtMargin 300 sampleSignedInContext sampleSession1).accessToken.value
      ≠ sampleSignedInContext.accessToken.value ∧
    (refreshAtMargin 300 sampleSignedInContext sampleSession1).refreshTimer.attempts = 0 ∧
    ∃ e2, (runRefreshes 300 sampleSignedInContext [sampleSession1]).accessToken.expiresAt
        = some e2 ∧ (1900 : Int) ≤ e2 :=
  C3_successful_refresh_advances_expiry 300 sampleSignedInContext 1900 900
    sampleSession1 [sampleSession1] (by decide) (by decide) (by decide)
    (by decide) (by decide) (by decide)

/-- Claim C5: with auto-sign-in enabled and the entry URL carrying a
refresh token, a token exchange failing with a transport (network)
error lands the machine in `signedOut.noErrors` (no crash: the step
is a total function) and records under `errors.authentication` the
payload of the `network-error` classification. -/
theorem C5_auto_signin_network_error
    (params : UrlParams) (now : Int) (rt : String)
    (hrt : params.refreshToken = some rt) :
    (autoSignInStep params now .networkError).1 = .signedOutNoErrors ∧
    (autoSignInStep params now .networkError).2.errors.authentication
      = some (payloadOf .networkFailure) ∧
    classify .networkError = some .networkFailure := by
  simp [autoSignInStep, hrt, errorPayload, classify]

/-- Witness for C5 at a concrete input: a URL carrying refresh token
`rt-url` and a simulated transport failure. -/
theorem C5_witness :
    (autoSignInStep ⟨some "rt-url", none, none⟩ 0 .networkError).1
      = .signedOutNoErrors ∧
    (autoSignInStep ⟨some "rt-url", none, none⟩ 0 .networkError).2.errors.authentication
      = some (payloadOf .networkFailure) ∧
    classify .networkError = some .networkFailure :=
  C5_auto_signin_network_error ⟨some "rt-url", none, none⟩ 0 "rt-url" rfl

/-- Claim C6: with `refreshIntervalTime = I` configured, the scheduler
delay is always `I` regardless of the token's own expiry (so the
timer re-arms with the same interval after every cycle), a pending
timer fires after an advance of exactly `I` seconds, and two
consecutive refresh cycles returning fresh sessions yield two
distinct non-null access-token values. -/
theorem C6_fixed_interval_refresh
    (cfg : AuthConfig) (i : Int) (ctx : AuthContext) (now t1 t2 : Int)
    (s1 s2 : Session)
    (hI : cfg.refreshIntervalTime = some i)
    (hs : s1.accessToken ≠ s2.accessToken) :
    (∀ (c : AuthContext) (nowx : Int), refreshDelay cfg c nowx = i) ∧
    (advanceTime cfg (.signedIn .pending) ctx now (now + i)).1
      = .signedIn .refreshing ∧
    ((applyRefreshOutcome ctx t1 (.success s1)).2.accessToken.value
        = some s1.accessToken ∧
      (applyRefreshOutcome (applyRefreshOutcome ctx t1 (.success s1)).2 t2
          (.success s2)).2.accessToken.value = some s2.accessToken ∧
      (applyRefreshOutcome ctx t1 (.success s1)).2.accessToken.value ≠ none ∧
      (applyRefreshOutcome (applyRefreshOutcome ctx t1 (.success s1)).2 t2
          (.success s2)).2.accessToken.value ≠ none ∧
      (applyRefreshOutcome ctx t1 (.success s1)).2.accessToken.value
        ≠ (applyRefreshOutcome (applyRefreshOutcome ctx t1 (.success s1)).2 t2
            (.success s2)).2.accessToken.value) := by
  have hdelay : ∀ (c : AuthContext) (nowx : Int), refreshDelay cfg c nowx = i := by
    intro c nowx; simp [refreshDelay, hI]
  refine ⟨hdelay, ?_, ?_, ?_, ?_, ?_, ?_⟩
  · simp [advanceTime, hdelay]
  · simp [applyRefreshOutcome, applySession]
  · simp [applyRefreshOutcome, applySession]
  · simp [applyRefreshOutcome, applySession]
  · simp [applyRefreshOutcome, applySession]
  · simp [applyRefreshOutcome, applySession, hs]

/-- Witness for C6 at a concrete input: interval 850 with the sample
signed-in context and two fresh sessions `tok-1`, `tok-2`. -/
theorem C6_witness :
    (∀ (c : AuthContext) (nowx : Int),
      refreshDelay ⟨300, some 850, false⟩ c nowx = 850) ∧
    (advanceTime ⟨300, some 850, false⟩ (.signedIn .pending)
        sampleSignedInContext 0 (0 + 850)).1 = .signedIn .refreshing ∧
    ((applyRefreshOutcome sampleSignedInContext 850
          (.success sampleSession1)).2.accessToken.value
        = some sampleSession1.accessToken ∧
      (applyRefreshOutcome (applyRefreshOutcome sampleSignedInContext 850
            (.success sampleSession1)).2 1700
          (.success sampleSession2)).2.accessToken.value
        = some sampleSession2.accessToken ∧
      (applyRefreshOutcome sampleSignedInContext 850
          (.success sampleSession1)).2.accessToken.value ≠ none ∧
      (applyRefreshOutcome (applyRefreshOutcome sampleSignedInContext 850
            (.success sampleSession1)).2 1700
          (.success sampleSession2)).2.accessToken.value ≠ none ∧
      (applyRefreshOutcome sampleSignedInContext 850
          (.success sampleSession1)).2.accessToken.value
        ≠ (applyRefreshOutcome (applyRefreshOutcome sampleSignedInContext 850
              (.success sampleSession1)).2 1700
            (.success sampleSession2)).2.accessToken.value) :=
  C6_fixed_interval_refresh ⟨300, some 850, false⟩ 850 sampleSignedInContext
    0 850 1700 sampleSession1 sampleSession2 rfl (by decide)

/-- Claim C7: a `SESSION_UPDATE` whose session has
`accessTokenExpiresIn = null` triggers exactly one automatic refresh;
afterwards the machine is signed in with a pending timer, the context
access token is the refreshed one (different from the supplied one),
and a non-null expiry is persisted to the store's JWT-expiry key. -/
theorem C7_session_update_without_expiry
    (ctx : AuthContext) (now : Int) (s s2 : Session) (d : Int)
    (hnone : s.accessTokenExpiresIn = none)
    (hd : s2.accessTokenExpiresIn = some d)
    (hdiff : s2.accessToken ≠ s.accessToken) :
    (handleSessionUpdate ctx now s (.success s2)).2.2.2 = 1 ∧
    (handleSessionUpdate ctx now s (.success s2)).1 = .signedIn .pending ∧
    (handleSessionUpdate ctx now s (.success s2)).2.1.accessToken.value
      = some s2.accessToken ∧
    (handleSessionUpdate ctx now s (.success s2)).2.1.accessToken.value
      ≠ some s.accessToken ∧
    (handleSessionUpdate ctx now s (.success s2)).2.2.1.jwtExpiresAt ≠ none := by
  simp [handleSessionUpdate, hnone, hd, applyRefreshOutcome, applySession,
    persistSession, hdiff]

/-- Witness for C7 at a concrete input: a session update without expiry
for token `tok-0`, refreshed into session `tok-1` valid 900 seconds. -/
theorem C7_witness :
    (handleSessionUpdate initialContext 100
        ⟨"user-1", "tok-0", none, "rt-0"⟩ (.success sampleSession1)).2.2.2 = 1 ∧
    (handleSessionUpdate initialContext 100
        ⟨"user-1", "tok-0", none, "rt-0"⟩ (.success sampleSession1)).1
      = .signedIn .pending ∧
    (handleSessionUpdate initialContext 100
        ⟨"user-1", "tok-0", none, "rt-0"⟩ (.success sampleSession1)).2.1.accessToken.value
      = some sampleSession1.accessToken ∧
    (handleSessionUpdate initialContext 100
        ⟨"user-1", "tok-0", none, "rt-0"⟩ (.success sampleSession1)).2.1.accessToken.value
      ≠ some "tok-0" ∧
    (handleSessionUpdate initialContext 100
        ⟨"user-1", "tok-0", none, "rt-0"⟩ (.success sampleSession1)).2.2.1.jwtExpiresAt
      ≠ none :=
  C7_session_update_without_expiry initialContext 100
    ⟨"user-1", "tok-0", none, "rt-0"⟩ sampleSession1 900 rfl rfl (by decide)

/-- Claim C8: with auto-sign-in enabled and the entry URL carrying
`error=<code>` (and no refresh token), the machine lands in
`signedOut.noErrors` with `errors.authentication.error = <code>` and
`message` equal to the supplied `errorDescription`; when
`errorDescription` is omitted, `message` equals the error code
itself. -/
theorem C8_url_error_auto_signin
    (params : UrlParams) (now : Int) (code : String) (o : RefreshOutcome)
    (hno : params.refreshToken = none)
    (herr : params.error = some code) :
    (autoSignInStep params now o).1 = .signedOutNoErrors ∧
    (autoSignInStep params now o).2.errors.authentication
      = some (urlErrorPayload code params.errorDescription) ∧
    (∀ m, params.errorDescription = some m →
      (urlErrorPayload code params.errorDescription).error = code ∧
      (urlErrorPayload code params.errorDescription).message = m) ∧
    (params.errorDescription = none →
      (urlErrorPayload code params.errorDescription).error = code ∧
      (urlErrorPayload code params.errorDescription).message = code) := by
  refine ⟨?_, ?_, ?_, ?_⟩
  · simp [autoSignInStep, hno, herr]
  · simp [autoSignInStep, hno, herr]
  · intro m hm; simp [urlErrorPayload, hm]
  · intro hm; simp [urlErrorPayload, hm]

/-- Witness for C8 at a concrete input: URL error
`invalid-refresh-token` with description
`Invalid or expired refresh token`. -/
theorem C8_witness :
    (autoSignInStep
        ⟨none, some "invalid-refresh-token", some "Invalid or expired refresh token"⟩
        0 .networkError).1 = .signedOutNoErrors ∧
    (autoSignInStep
        ⟨none, some "invalid-refresh-token", some "Invalid or expired refresh token"⟩
        0 .networkError).2.errors.authentication
      = some (urlErrorPayload "invalid-refresh-token"
          (some "Invalid or expired refresh token")) ∧
    (∀ m, (some "Invalid or expired refresh token" : Option String) = some m →
      (urlErrorPayload "invalid-refresh-token"
          (some "Invalid or expired refresh token")).error
        = "invalid-refresh-token" ∧
      (urlErrorPayload "invalid-refresh-token"
          (some "Invalid or expired refresh token")).message = m) ∧
    ((some "Invalid or expired refresh token" : Option String) = none →
      (urlErrorPayload "invalid-refresh-token"
          (some "Invalid or expired refresh token")).error
        = "invalid-refresh-token" ∧
      (urlErrorPayload "invalid-refresh-token"
          (some "Invalid or expired refresh token")).message
        = "invalid-refresh-token") :=
  C8_url_error_auto_signin
    ⟨none, some "invalid-refresh-token", some "Invalid or expired refresh token"⟩
    0 "invalid-refresh-token" .networkError rfl rfl

/-- Claim C10: every URL-origin error consumed at auto-sign-in (an
`error` query parameter present, no refresh token) records
`errors.authentication.status = 10`, both when `errorDescription` is
supplied and when it is omitted. -/
theorem C10_url_error_status_default
    (params : UrlParams) (now : Int) (code : String) (o : RefreshOutcome)
    (hno : params.refreshToken = none)
    (herr : params.error = some code) :
    ∀ p, (autoSignInStep params now o).2.errors.authentication = some p →
      p.status = 10 := by
  intro p hp
  simp [autoSignInStep, hno, herr] at hp
  subst hp
  simp [urlErrorPayload, URL_ERROR_STATUS]

/-- Witness for C10 at concrete inputs: the URL-origin error code
`invalid-refresh-token`, once with a description and once without;
both record status 10. -/
theorem C10_witness :
    (∀ p, (autoSignInStep ⟨none, some "invalid-refresh-token", some "msg"⟩
        0 .networkError).2.errors.authentication = some p → p.status = 10) ∧
    (∀ p, (autoSignInStep ⟨none, some "invalid-refresh-token", none⟩
        0 .networkError).2.errors.authentication = some p → p.status = 10) :=
  ⟨C10_url_error_status_default ⟨none, some "invalid-refresh-token", some "msg"⟩
      0 "invalid-refresh-token" .networkError rfl rfl,
   C10_url_error_status_default ⟨none, some "invalid-refresh-token", none⟩
      0 "invalid-refresh-token" .networkError rfl rfl⟩

end NhostAuth
